import Mathlib

/-!
Shallow embedding of the resilience layer of the `eisenhower-backend`
repository: the circuit breaker (`src/utils/circuitBreaker.js`), the
points-based rate limiter (`PointsBasedLimiter` in the rate-limiter module),
and the tiered cache manager (the `CacheManager` over four `node-cache`
tiers).  JavaScript numbers that hold times and counters are modelled as
`Nat` (with `Int` used exactly where the source computes a possibly negative
difference), thrown errors as `Except String`, and the mutable instance
state as explicit state passing.
-/

/-! ## Circuit breaker (`src/utils/circuitBreaker.js`) -/

/-- The three states of `CIRCUIT_STATES` (lines 4-8). -/
inductive CBState where
  | CLOSED
  | OPEN
  | HALF_OPEN
deriving DecidableEq

/-- The cumulative `this.stats` record initialised in the constructor
(lines 23-30). -/
structure CBStats where
  totalRequests : Nat
  totalFailures : Nat
  totalSuccesses : Nat
  totalTimeouts : Nat
  circuitOpens : Nat
  circuitCloses : Nat
deriving DecidableEq

/-- The instance state of a `CircuitBreaker` (constructor, lines 11-31).
`lastFailureTime` is `none` for the JavaScript `null`. -/
structure CircuitBreaker where
  failureThreshold : Nat
  resetTimeout : Nat
  timeout : Nat
  monitoringPeriod : Nat
  state : CBState
  failureCount : Nat
  lastFailureTime : Option Nat
  successCount : Nat
  requestCount : Nat
  stats : CBStats
deriving DecidableEq

/-- A freshly constructed breaker (`new CircuitBreaker(options)` with all
four numeric options supplied, lines 11-31). -/
def CircuitBreaker.new (failureThreshold resetTimeout timeout monitoringPeriod : Nat) :
    CircuitBreaker :=
  { failureThreshold := failureThreshold
    resetTimeout := resetTimeout
    timeout := timeout
    monitoringPeriod := monitoringPeriod
    state := CBState.CLOSED
    failureCount := 0
    lastFailureTime := none
    successCount := 0
    requestCount := 0
    stats := { totalRequests := 0, totalFailures := 0, totalSuccesses := 0,
               totalTimeouts := 0, circuitOpens := 0, circuitCloses := 0 } }

/-- `pat` is a leading segment of `s` (helper for `strIncludes`). -/
def charsLeadWith : List Char → List Char → Bool
  | [], _ => true
  | _ :: _, [] => false
  | a :: as, b :: bs => a == b && charsLeadWith as bs

/-- `pat` occurs contiguously somewhere in `s` (helper for `strIncludes`). -/
def charsContain (pat : List Char) : List Char → Bool
  | [] => charsLeadWith pat []
  | c :: cs => charsLeadWith pat (c :: cs) || charsContain pat cs

/-- JavaScript `s.includes(pat)` on strings, used by `onFailure`
(line 101) to tag timeout failures. -/
def strIncludes (s pat : String) : Bool :=
  charsContain pat.toList s.toList

/-- `onSuccess` (lines 80-93): bump `totalSuccesses`, reset the
consecutive-failure counter, bump `successCount`; while HALF_OPEN, three or
more accumulated successes close the circuit. -/
def CircuitBreaker.onSuccess (cb : CircuitBreaker) : CircuitBreaker :=
  let cb1 := { cb with
    stats := { cb.stats with totalSuccesses := cb.stats.totalSuccesses + 1 }
    failureCount := 0
    successCount := cb.successCount + 1 }
  if cb1.state = CBState.HALF_OPEN ∧ 3 ≤ cb1.successCount then
    { cb1 with
      state := CBState.CLOSED
      stats := { cb1.stats with circuitCloses := cb1.stats.circuitCloses + 1 } }
  else cb1

/-- `onFailure` (lines 96-113): bump `totalFailures` and the
consecutive-failure counter, record `lastFailureTime = Date.now()`, tag
timeout messages, and open the circuit once `failureCount` reaches
`failureThreshold`. -/
def CircuitBreaker.onFailure (cb : CircuitBreaker) (now : Nat) (errMsg : String) :
    CircuitBreaker :=
  let cb1 := { cb with
    stats := { cb.stats with totalFailures := cb.stats.totalFailures + 1 }
    failureCount := cb.failureCount + 1
    lastFailureTime := some now }
  let cb2 :=
    if strIncludes errMsg "timeout" then
      { cb1 with stats := { cb1.stats with totalTimeouts := cb1.stats.totalTimeouts + 1 } }
    else cb1
  if cb2.failureThreshold ≤ cb2.failureCount then
    { cb2 with
      state := CBState.OPEN
      stats := { cb2.stats with circuitOpens := cb2.stats.circuitOpens + 1 } }
  else cb2

/-- The first two statements of `execute` (lines 35-36): bump the cumulative
and per-instance request counters. -/
def bumpRequest (cb : CircuitBreaker) : CircuitBreaker :=
  { cb with
    stats := { cb.stats with totalRequests := cb.stats.totalRequests + 1 }
    requestCount := cb.requestCount + 1 }

/-- The OPEN-to-HALF_OPEN transition of `execute` (lines 43-44). -/
def toHalfOpen (cb : CircuitBreaker) : CircuitBreaker :=
  { cb with state := CBState.HALF_OPEN, successCount := 0 }

/-- The open-circuit check of `execute` (lines 39-47): `none` means the call
throws `'Circuit breaker is OPEN'`; `some cb1` means the call proceeds with
state `cb1`.  The JavaScript `Date.now() - this.lastFailureTime` treats a
`null` timestamp as `0`, and the difference can be negative, hence `Int`. -/
def CircuitBreaker.checkOpen (cb : CircuitBreaker) (now : Nat) : Option CircuitBreaker :=
  if cb.state = CBState.OPEN then
    if (now : Int) - (cb.lastFailureTime.getD 0 : Nat) < (cb.resetTimeout : Int) then
      none
    else
      some (toHalfOpen cb)
  else some cb

/-- Everything observable about one `execute` call: the value returned or the
error thrown (`outcome`), whether the wrapped operation was invoked, whether
the fallback was invoked, the breaker state in force at the moment of
invocation (after the open-circuit check), and the post-call breaker state. -/
structure ExecResult (α : Type) where
  outcome : Except String α
  invoked : Bool
  fallbackInvoked : Bool
  stateAtCall : CBState
  cb : CircuitBreaker

/-- `execute(operation, fallback)` (lines 34-77).  The environment of one
call is summarised by `opRace` — the outcome of racing the operation against
the per-call timeout if the operation is invoked (`Except.error` carries the
thrown message; a timeout win is an error whose message contains
`"timeout"`) — and `fallback`, which is `none` when no fallback function is
supplied and otherwise carries the fallback's own outcome if it is called. -/
def CircuitBreaker.execute {α : Type} (cb : CircuitBreaker) (now : Nat)
    (opRace : Except String α) (fallback : Option (Except String α)) : ExecResult α :=
  let cb0 := bumpRequest cb
  match cb0.checkOpen now with
  | none =>
      { outcome := Except.error "Circuit breaker is OPEN", invoked := false,
        fallbackInvoked := false, stateAtCall := cb0.state, cb := cb0 }
  | some cb1 =>
      match opRace with
      | Except.ok v =>
          { outcome := Except.ok v, invoked := true, fallbackInvoked := false,
            stateAtCall := cb1.state, cb := cb1.onSuccess }
      | Except.error e =>
          let cb2 := cb1.onFailure now e
          match fallback with
          | some fb =>
              { outcome := match fb with
                  | Except.ok v => Except.ok v
                  | Except.error _ => Except.error e,
                invoked := true, fallbackInvoked := true, stateAtCall := cb1.state,
                cb := cb2 }
          | none =>
              { outcome := Except.error e, invoked := true, fallbackInvoked := false,
                stateAtCall := cb1.state, cb := cb2 }

/-- One guarded call of a call sequence: its wall-clock time, the raced
outcome of the operation were it invoked, and the fallback situation. -/
structure CBCall (α : Type) where
  now : Nat
  opRace : Except String α
  fallback : Option (Except String α)

/-- Thread a breaker through a sequence of `execute` calls. -/
def runCalls {α : Type} (cb : CircuitBreaker) : List (CBCall α) → CircuitBreaker
  | [] => cb
  | c :: cs => runCalls (cb.execute c.now c.opRace c.fallback).cb cs

/-- Number of calls in a sequence that are rejected by the open-circuit
check (the operation is never invoked for exactly those calls). -/
def countRejections {α : Type} (cb : CircuitBreaker) : List (CBCall α) → Nat
  | [] => 0
  | c :: cs =>
      let r := cb.execute c.now c.opRace c.fallback
      (if r.invoked then 0 else 1) + countRejections r.cb cs

/-! ## Points-based rate limiter (`PointsBasedLimiter` in the rate-limiter
module shipped with `src/utils/circuitBreaker.js`) -/

/-- One value of the `this.points` map: accumulated points and the end of
the current window. -/
structure PBLEntry where
  points : Nat
  resetTime : Nat
deriving DecidableEq

/-- Lookup in an association list (model of `Map.get` / property access). -/
def alistFind {β : Type} (m : List (String × β)) (k : String) : Option β :=
  match m with
  | [] => none
  | (k1, v) :: rest => if k1 = k then some v else alistFind rest k

/-- Insert-or-overwrite in an association list (model of `Map.set`). -/
def alistInsert {β : Type} (m : List (String × β)) (k : String) (v : β) :
    List (String × β) :=
  match m with
  | [] => [(k, v)]
  | (k1, v1) :: rest =>
      if k1 = k then (k, v) :: rest else (k1, v1) :: alistInsert rest k v

/-- Removal from an association list (model of `Map.delete` / key removal;
a JavaScript map holds each key at most once, so removing every occurrence
coincides with removing the key). -/
def alistErase {β : Type} (m : List (String × β)) (k : String) : List (String × β) :=
  m.filter (fun p => !(p.1 == k))

/-- The instance state of `PointsBasedLimiter`: its `points` map and the
`windowMs` / `maxPoints` fields set in the constructor. -/
structure PointsBasedLimiter where
  points : List (String × PBLEntry)
  windowMs : Nat
  maxPoints : Nat
deriving DecidableEq

/-- `new PointsBasedLimiter()`: empty map, 15-minute window, 100 points. -/
def PointsBasedLimiter.init : PointsBasedLimiter :=
  { points := [], windowMs := 15 * 60 * 1000, maxPoints := 100 }

/-- `getCost(operation)`: the per-operation cost table, `1` for unknown
operations (`costs[operation] || 1`). -/
def getCost (op : String) : Nat :=
  if op = "GET" then 1
  else if op = "POST" then 2
  else if op = "PUT" then 2
  else if op = "DELETE" then 3
  else if op = "AI" then 10
  else if op = "AUTH" then 5
  else if op = "UPLOAD" then 15
  else 1

/-- The entry for `key` after the create-if-absent step and the lazy window
reset of `canExecute` (`if (now > userPoints.resetTime) { points = 0;
resetTime = now + windowMs }`). -/
def PointsBasedLimiter.effEntry (l : PointsBasedLimiter) (key : String) (now : Nat) :
    PBLEntry :=
  let e0 := match alistFind l.points key with
    | none => { points := 0, resetTime := now + l.windowMs }
    | some x => x
  if e0.resetTime < now then { points := 0, resetTime := now + l.windowMs } else e0

/-- `canExecute(key, operation)`: returns the admission decision and the
updated limiter.  The created/reset entry is stored back even on rejection
(the JavaScript mutates the map object in place before the budget test). -/
def PointsBasedLimiter.canExecute (l : PointsBasedLimiter) (key op : String)
    (now : Nat) : Bool × PointsBasedLimiter :=
  let cost := getCost op
  let e := l.effEntry key now
  if l.maxPoints < e.points + cost then
    (false, { l with points := alistInsert l.points key e })
  else
    (true,
      { l with points := alistInsert l.points key ({ e with points := e.points + cost }) })

/-! ## Tiered cache manager (`CacheManager` over four `node-cache` tiers,
`src/unnamed/part_001`) -/

/-- One stored cache entry: the value and the time-to-live that was applied
when it was set (the per-call ttl, or the tier default). -/
structure NCEntry (α : Type) where
  value : α
  ttl : Nat
deriving DecidableEq

/-- One `node-cache` instance: the per-tier options set at construction and
the current key-value data. -/
structure NodeCache (α : Type) where
  stdTTL : Nat
  checkperiod : Nat
  maxKeys : Int
  data : List (String × NCEntry α)
deriving DecidableEq

/-- Modelled from the `node-cache` (v5) dependency required by the cache
module, whose source is not part of this repository: `set(key, value, ttl)`
first throws `ECACHEFULL` when `maxKeys > -1` and the current key count has
already reached `maxKeys` (this check precedes the existence test, so it
fires even when `key` is already present); otherwise it stores the entry
(insert or overwrite, with `ttl` defaulting to the instance `stdTTL`) and
returns `true`.  `node-cache` performs no eviction on `set`. -/
def NodeCache.ncSet {α : Type} (c : NodeCache α) (key : String) (v : α)
    (ttl : Option Nat) : Except String (NodeCache α) :=
  if -1 < c.maxKeys ∧ c.maxKeys ≤ (c.data.length : Int) then
    Except.error "ECACHEFULL"
  else
    Except.ok { c with data := alistInsert c.data key ({ value := v, ttl := ttl.getD c.stdTTL }) }

/-- Modelled from the `node-cache` (v5) dependency: `del(key)` removes the
entry when present and returns the number of deleted entries (`1` or `0`);
per its documentation a delete never fails. -/
def NodeCache.ncDel {α : Type} (c : NodeCache α) (key : String) :
    Nat × NodeCache α :=
  if (alistFind c.data key).isSome then
    (1, { c with data := alistErase c.data key })
  else (0, c)

/-- `mainCache` (lines 4-10): stdTTL 300 s, maxKeys 1000. -/
def mainCache {α : Type} : NodeCache α :=
  { stdTTL := 300, checkperiod := 60, maxKeys := 1000, data := [] }

/-- `sessionCache` (lines 13-19): stdTTL 3600 s, maxKeys 500. -/
def sessionCache {α : Type} : NodeCache α :=
  { stdTTL := 3600, checkperiod := 300, maxKeys := 500, data := [] }

/-- `aiCache` (lines 22-28): stdTTL 600 s, maxKeys 200. -/
def aiCache {α : Type} : NodeCache α :=
  { stdTTL := 600, checkperiod := 60, maxKeys := 200, data := [] }

/-- `rateLimitCache` (lines 31-37): stdTTL 900 s, maxKeys 5000. -/
def rateLimitCache {α : Type} : NodeCache α :=
  { stdTTL := 900, checkperiod := 60, maxKeys := 5000, data := [] }

/-- The `CacheManager` instance state: its four tiers (`this.caches`). -/
structure CacheManager (α : Type) where
  main : NodeCache α
  session : NodeCache α
  ai : NodeCache α
  rateLimit : NodeCache α
deriving DecidableEq

/-- `new CacheManager()` over the four module-level tiers. -/
def cacheManagerInit {α : Type} : CacheManager α :=
  { main := mainCache, session := sessionCache, ai := aiCache,
    rateLimit := rateLimitCache }

/-- `this.caches[cacheType]`: tier lookup by name; an unknown name yields
`undefined` (`none`). -/
def CacheManager.getTier {α : Type} (cm : CacheManager α) (cacheType : String) :
    Option (NodeCache α) :=
  if cacheType = "main" then some cm.main
  else if cacheType = "session" then some cm.session
  else if cacheType = "ai" then some cm.ai
  else if cacheType = "rateLimit" then some cm.rateLimit
  else none

/-- Writing an updated tier back into the manager (the JavaScript mutates
the tier object in place). -/
def CacheManager.putTier {α : Type} (cm : CacheManager α) (cacheType : String)
    (c : NodeCache α) : CacheManager α :=
  if cacheType = "main" then { cm with main := c }
  else if cacheType = "session" then { cm with session := c }
  else if cacheType = "ai" then { cm with ai := c }
  else if cacheType = "rateLimit" then { cm with rateLimit := c }
  else cm

/-- `CacheManager.set(key, value, ttl = null, cacheType = 'main')`
(lines 86-99): `false` on an unknown tier; otherwise `cache.set(key, value,
ttl)` inside `try/catch`, so a thrown `ECACHEFULL` is caught and turned into
`false` with the manager unchanged. -/
def CacheManager.set {α : Type} (cm : CacheManager α) (key : String) (v : α)
    (ttl : Option Nat) (cacheType : String) : Bool × CacheManager α :=
  match cm.getTier cacheType with
  | none => (false, cm)
  | some c =>
      match c.ncSet key v ttl with
      | Except.error _ => (false, cm)
      | Except.ok c1 => (true, cm.putTier cacheType c1)

/-- The JavaScript return value of `CacheManager.delete`: the literal
`false` (unknown tier), or the deletion count returned by `cache.del`. -/
inductive CMDelResult where
  | jsFalse
  | count (n : Nat)
deriving DecidableEq

/-- `CacheManager.delete(key, cacheType = 'main')` (lines 102-115): `false`
on an unknown tier, otherwise the count from `cache.del(key)`. -/
def CacheManager.delete {α : Type} (cm : CacheManager α) (key : String)
    (cacheType : String) : CMDelResult × CacheManager α :=
  match cm.getTier cacheType with
  | none => (CMDelResult.jsFalse, cm)
  | some c =>
      let r := c.ncDel key
      (CMDelResult.count r.1, cm.putTier cacheType r.2)

/-! ## Concrete instances used in counterexamples and witnesses -/

/-- A breaker with `failureThreshold = 2`, `resetTimeout = 100`. -/
def c1CB : CircuitBreaker := CircuitBreaker.new 2 100 30000 60000

/-- Two consecutive failing guarded calls. -/
def c1Calls : List (CBCall Nat) :=
  [{ now := 0, opRace := Except.error "a", fallback := none },
   { now := 1, opRace := Except.error "b", fallback := none }]

/-- A breaker driven to OPEN by one failing call (`failureThreshold = 1`,
`resetTimeout = 100`, failure at time 0). -/
def openCB : CircuitBreaker :=
  ((CircuitBreaker.new 1 100 30000 60000).execute 0
    (Except.error "boom" : Except String Nat) none).cb

/-- The HALF_OPEN state a call starting at time 200 on `openCB` proceeds
under (the mid-call state after the request bump and the OPEN-to-HALF_OPEN
transition). -/
def hoCB : CircuitBreaker := toHalfOpen (bumpRequest openCB)

/-- Three successful probe calls. -/
def c2Probes : List (CBCall Nat) :=
  [{ now := 300, opRace := Except.ok 1, fallback := none },
   { now := 301, opRace := Except.ok 2, fallback := none },
   { now := 302, opRace := Except.ok 3, fallback := none }]

/-- A breaker with `failureThreshold = 2`, `resetTimeout = 10`, driven to
OPEN by failures at times 0 and 1, then moved to HALF_OPEN by a successful
call at time 20 (one probe success so far). -/
def c3HalfOpen : CircuitBreaker :=
  (((((CircuitBreaker.new 2 10 30000 60000).execute 0
        (Except.error "boom" : Except String Nat) none).cb.execute 1
        (Except.error "boom" : Except String Nat) none).cb.execute 20
        (Except.ok 7 : Except String Nat) none).cb)

/-- A call sequence with one open-circuit rejection: a failure at time 0
opens the breaker (`failureThreshold = 1`), the call at time 1 is rejected. -/
def c9Calls : List (CBCall Nat) :=
  [{ now := 0, opRace := Except.error "boom", fallback := none },
   { now := 1, opRace := Except.ok 0, fallback := none }]

/-- A points limiter state with a small budget (`maxPoints` and `windowMs`
are instance fields, read at call time). -/
def pblSmall : PointsBasedLimiter := { points := [], windowMs := 100, maxPoints := 20 }

/-- 200 distinct keys: the `ai` tier's configured `maxKeys`. -/
def aiFullData : List (String × NCEntry Nat) :=
  (List.range 200).map (fun i => (toString i, ⟨0, 600⟩))

/-- The cache manager with its `ai` tier at capacity (200 entries). -/
def aiFullCM : CacheManager Nat :=
  { (cacheManagerInit : CacheManager Nat) with
      ai := { (aiCache : NodeCache Nat) with data := aiFullData } }

/-- The cache manager with one entry under key `"k"` in the `main` tier. -/
def cmWithK : CacheManager Nat :=
  { (cacheManagerInit : CacheManager Nat) with
      main := { (mainCache : NodeCache Nat) with data := [("k", ⟨1, 300⟩)] } }

/-! ## Helper lemmas: field bookkeeping of the breaker operations -/

theorem bumpRequest_state (cb : CircuitBreaker) : (bumpRequest cb).state = cb.state := rfl

theorem bumpRequest_failureCount (cb : CircuitBreaker) :
    (bumpRequest cb).failureCount = cb.failureCount := rfl

theorem bumpRequest_lastFailureTime (cb : CircuitBreaker) :
    (bumpRequest cb).lastFailureTime = cb.lastFailureTime := rfl

theorem bumpRequest_successCount (cb : CircuitBreaker) :
    (bumpRequest cb).successCount = cb.successCount := rfl

theorem bumpRequest_failureThreshold (cb : CircuitBreaker) :
    (bumpRequest cb).failureThreshold = cb.failureThreshold := rfl

theorem bumpRequest_resetTimeout (cb : CircuitBreaker) :
    (bumpRequest cb).resetTimeout = cb.resetTimeout := rfl

theorem bumpRequest_totalRequests (cb : CircuitBreaker) :
    (bumpRequest cb).stats.totalRequests = cb.stats.totalRequests + 1 := rfl

theorem bumpRequest_totalSuccesses (cb : CircuitBreaker) :
    (bumpRequest cb).stats.totalSuccesses = cb.stats.totalSuccesses := rfl

theorem bumpRequest_totalFailures (cb : CircuitBreaker) :
    (bumpRequest cb).stats.totalFailures = cb.stats.totalFailures := rfl

theorem toHalfOpen_state (cb : CircuitBreaker) :
    (toHalfOpen cb).state = CBState.HALF_OPEN := rfl

theorem toHalfOpen_successCount (cb : CircuitBreaker) :
    (toHalfOpen cb).successCount = 0 := rfl

theorem toHalfOpen_failureCount (cb : CircuitBreaker) :
    (toHalfOpen cb).failureCount = cb.failureCount := rfl

theorem toHalfOpen_failureThreshold (cb : CircuitBreaker) :
    (toHalfOpen cb).failureThreshold = cb.failureThreshold := rfl

theorem toHalfOpen_resetTimeout (cb : CircuitBreaker) :
    (toHalfOpen cb).resetTimeout = cb.resetTimeout := rfl

theorem toHalfOpen_stats (cb : CircuitBreaker) : (toHalfOpen cb).stats = cb.stats := rfl

theorem onSuccess_failureCount (cb : CircuitBreaker) : cb.onSuccess.failureCount = 0 := by
  simp only [CircuitBreaker.onSuccess]
  split <;> rfl

theorem onSuccess_successCount (cb : CircuitBreaker) :
    cb.onSuccess.successCount = cb.successCount + 1 := by
  simp only [CircuitBreaker.onSuccess]
  split <;> rfl

theorem onSuccess_state (cb : CircuitBreaker) :
    cb.onSuccess.state =
      if cb.state = CBState.HALF_OPEN ∧ 3 ≤ cb.successCount + 1 then CBState.CLOSED
      else cb.state := by
  simp only [CircuitBreaker.onSuccess]
  split <;> rfl

theorem onSuccess_failureThreshold (cb : CircuitBreaker) :
    cb.onSuccess.failureThreshold = cb.failureThreshold := by
  simp only [CircuitBreaker.onSuccess]
  split <;> rfl

theorem onSuccess_resetTimeout (cb : CircuitBreaker) :
    cb.onSuccess.resetTimeout = cb.resetTimeout := by
  simp only [CircuitBreaker.onSuccess]
  split <;> rfl

theorem onSuccess_lastFailureTime (cb : CircuitBreaker) :
    cb.onSuccess.lastFailureTime = cb.lastFailureTime := by
  simp only [CircuitBreaker.onSuccess]
  split <;> rfl

theorem onSuccess_totalRequests (cb : CircuitBreaker) :
    cb.onSuccess.stats.totalRequests = cb.stats.totalRequests := by
  simp only [CircuitBreaker.onSuccess]
  split <;> rfl

theorem onSuccess_totalSuccesses (cb : CircuitBreaker) :
    cb.onSuccess.stats.totalSuccesses = cb.stats.totalSuccesses + 1 := by
  simp only [CircuitBreaker.onSuccess]
  split <;> rfl

theorem onSuccess_totalFailures (cb : CircuitBreaker) :
    cb.onSuccess.stats.totalFailures = cb.stats.totalFailures := by
  simp only [CircuitBreaker.onSuccess]
  split <;> rfl

theorem onFailure_failureCount (cb : CircuitBreaker) (now : Nat) (e : String) :
    (cb.onFailure now e).failureCount = cb.failureCount + 1 := by
  simp only [CircuitBreaker.onFailure]
  split <;> split <;> rfl

theorem onFailure_lastFailureTime (cb : CircuitBreaker) (now : Nat) (e : String) :
    (cb.onFailure now e).lastFailureTime = some now := by
  simp only [CircuitBreaker.onFailure]
  split <;> split <;> rfl

theorem onFailure_successCount (cb : CircuitBreaker) (now : Nat) (e : String) :
    (cb.onFailure now e).successCount = cb.successCount := by
  simp only [CircuitBreaker.onFailure]
  split <;> split <;> rfl

theorem onFailure_state (cb : CircuitBreaker) (now : Nat) (e : String) :
    (cb.onFailure now e).state =
      if cb.failureThreshold ≤ cb.failureCount + 1 then CBState.OPEN else cb.state := by
  simp only [CircuitBreaker.onFailure]
  split <;> split <;> rfl

theorem onFailure_failureThreshold (cb : CircuitBreaker) (now : Nat) (e : String) :
    (cb.onFailure now e).failureThreshold = cb.failureThreshold := by
  simp only [CircuitBreaker.onFailure]
  split <;> split <;> rfl

theorem onFailure_resetTimeout (cb : CircuitBreaker) (now : Nat) (e : String) :
    (cb.onFailure now e).resetTimeout = cb.resetTimeout := by
  simp only [CircuitBreaker.onFailure]
  split <;> split <;> rfl

theorem onFailure_totalRequests (cb : CircuitBreaker) (now : Nat) (e : String) :
    (cb.onFailure now e).stats.totalRequests = cb.stats.totalRequests := by
  simp only [CircuitBreaker.onFailure]
  split <;> split <;> rfl

theorem onFailure_totalFailures (cb : CircuitBreaker) (now : Nat) (e : String) :
    (cb.onFailure now e).stats.totalFailures = cb.stats.totalFailures + 1 := by
  simp only [CircuitBreaker.onFailure]
  split <;> split <;> rfl

theorem onFailure_totalSuccesses (cb : CircuitBreaker) (now : Nat) (e : String) :
    (cb.onFailure now e).stats.totalSuccesses = cb.stats.totalSuccesses := by
  simp only [CircuitBreaker.onFailure]
  split <;> split <;> rfl

theorem checkOpen_not_open (cb : CircuitBreaker) (now : Nat)
    (h : cb.state ≠ CBState.OPEN) : cb.checkOpen now = some cb := by
  simp [CircuitBreaker.checkOpen, h]

theorem checkOpen_open_early (cb : CircuitBreaker) (now : Nat)
    (h : cb.state = CBState.OPEN)
    (hlt : (now : Int) - (cb.lastFailureTime.getD 0 : Nat) < (cb.resetTimeout : Int)) :
    cb.checkOpen now = none := by
  simp [CircuitBreaker.checkOpen, h, hlt]

theorem checkOpen_open_elapsed (cb : CircuitBreaker) (now : Nat)
    (h : cb.state = CBState.OPEN)
    (hge : ¬ (now : Int) - (cb.lastFailureTime.getD 0 : Nat) < (cb.resetTimeout : Int)) :
    cb.checkOpen now = some (toHalfOpen cb) := by
  simp [CircuitBreaker.checkOpen, h, hge]

theorem execute_open_early {α : Type} (cb : CircuitBreaker) (now : Nat)
    (op : Except String α) (fb : Option (Except String α))
    (h : cb.state = CBState.OPEN)
    (hlt : (now : Int) - (cb.lastFailureTime.getD 0 : Nat) < (cb.resetTimeout : Int)) :
    cb.execute now op fb =
      { outcome := Except.error "Circuit breaker is OPEN", invoked := false,
        fallbackInvoked := false, stateAtCall := CBState.OPEN, cb := bumpRequest cb } := by
  have h0 : (bumpRequest cb).checkOpen now = none := by
    apply checkOpen_open_early
    · simpa [bumpRequest_state] using h
    · simpa [bumpRequest_lastFailureTime, bumpRequest_resetTimeout] using hlt
  simp [CircuitBreaker.execute, h0, bumpRequest_state, h]

theorem execute_proceeds_ok {α : Type} (cb cb1 : CircuitBreaker) (now : Nat) (v : α)
    (fb : Option (Except String α))
    (h : (bumpRequest cb).checkOpen now = some cb1) :
    cb.execute now (Except.ok v) fb =
      { outcome := Except.ok v, invoked := true, fallbackInvoked := false,
        stateAtCall := cb1.state, cb := cb1.onSuccess } := by
  simp [CircuitBreaker.execute, h]

theorem execute_proceeds_err {α : Type} (cb cb1 : CircuitBreaker) (now : Nat) (e : String)
    (fb : Option (Except String α))
    (h : (bumpRequest cb).checkOpen now = some cb1) :
    (cb.execute now (Except.error e) fb).cb = cb1.onFailure now e ∧
    (cb.execute now (Except.error e) fb).invoked = true ∧
    (cb.execute now (Except.error e) fb).stateAtCall = cb1.state := by
  cases fb <;> simp [CircuitBreaker.execute, h]

theorem execute_not_open_checkOpen (cb : CircuitBreaker) (now : Nat)
    (h : cb.state ≠ CBState.OPEN) :
    (bumpRequest cb).checkOpen now = some (bumpRequest cb) :=
  checkOpen_not_open _ _ (by simpa [bumpRequest_state] using h)

theorem runCalls_append {α : Type} (cb : CircuitBreaker) (l1 l2 : List (CBCall α)) :
    runCalls cb (l1 ++ l2) = runCalls (runCalls cb l1) l2 := by
  induction l1 generalizing cb with
  | nil => rfl
  | cons c cs ih => simp [runCalls, ih]

/-- While CLOSED, a run of consecutive failed calls that stays strictly
below the threshold leaves the breaker CLOSED and adds one failure per
call. -/
theorem runCalls_closed_failures {α : Type} (cb : CircuitBreaker)
    (calls : List (CBCall α))
    (hstate : cb.state = CBState.CLOSED)
    (hfail : ∀ c ∈ calls, ∃ e, c.opRace = Except.error e)
    (hlt : cb.failureCount + calls.length < cb.failureThreshold) :
    (runCalls cb calls).state = CBState.CLOSED ∧
    (runCalls cb calls).failureCount = cb.failureCount + calls.length ∧
    (runCalls cb calls).failureThreshold = cb.failureThreshold ∧
    (runCalls cb calls).resetTimeout = cb.resetTimeout := by
  induction calls generalizing cb with
  | nil => exact ⟨hstate, by simp [runCalls], rfl, rfl⟩
  | cons c cs ih =>
    obtain ⟨e, he⟩ := hfail c (by simp)
    have hno : cb.state ≠ CBState.OPEN := by simp [hstate]
    have h0 := execute_not_open_checkOpen cb c.now hno
    have hcb : (cb.execute c.now c.opRace c.fallback).cb =
        (bumpRequest cb).onFailure c.now e := by
      rw [he]
      exact (execute_proceeds_err cb (bumpRequest cb) c.now e c.fallback h0).1
    have hfcn : (cb.execute c.now c.opRace c.fallback).cb.failureCount =
        cb.failureCount + 1 := by
      rw [hcb, onFailure_failureCount, bumpRequest_failureCount]
    have hthr : (cb.execute c.now c.opRace c.fallback).cb.failureThreshold =
        cb.failureThreshold := by
      rw [hcb, onFailure_failureThreshold, bumpRequest_failureThreshold]
    have hrt : (cb.execute c.now c.opRace c.fallback).cb.resetTimeout =
        cb.resetTimeout := by
      rw [hcb, onFailure_resetTimeout, bumpRequest_resetTimeout]
    have hstn : (cb.execute c.now c.opRace c.fallback).cb.state = CBState.CLOSED := by
      rw [hcb, onFailure_state, bumpRequest_failureCount, bumpRequest_failureThreshold,
        bumpRequest_state]
      rw [if_neg (by simp at hlt; omega)]
      exact hstate
    have hrec := ih (cb.execute c.now c.opRace c.fallback).cb hstn
      (fun x hx => hfail x (by simp [hx]))
      (by rw [hfcn, hthr]; simp at hlt ⊢; omega)
    refine ⟨hrec.1, ?_, ?_, ?_⟩
    · rw [show runCalls cb (c :: cs) = runCalls (cb.execute c.now c.opRace c.fallback).cb cs
        from rfl, hrec.2.1, hfcn]
      simp; omega
    · rw [show runCalls cb (c :: cs) = runCalls (cb.execute c.now c.opRace c.fallback).cb cs
        from rfl, hrec.2.2.1, hthr]
    · rw [show runCalls cb (c :: cs) = runCalls (cb.execute c.now c.opRace c.fallback).cb cs
        from rfl, hrec.2.2.2, hrt]

/-- While CLOSED, a nonempty run of consecutive failed calls that exactly
reaches the threshold opens the breaker; the last failure time is the last
call's time. -/
theorem runCalls_closed_failures_open {α : Type} (cb : CircuitBreaker)
    (calls : List (CBCall α))
    (hstate : cb.state = CBState.CLOSED)
    (hfail : ∀ c ∈ calls, ∃ e, c.opRace = Except.error e)
    (hlen : cb.failureCount + calls.length = cb.failureThreshold)
    (hne : calls ≠ []) :
    (runCalls cb calls).state = CBState.OPEN ∧
    (runCalls cb calls).failureCount = cb.failureThreshold ∧
    (runCalls cb calls).failureThreshold = cb.failureThreshold ∧
    (runCalls cb calls).resetTimeout = cb.resetTimeout := by
  rcases List.eq_nil_or_concat calls with rfl | ⟨init, last, rfl⟩
  · exact absurd rfl hne
  · simp only [List.concat_eq_append] at hfail hlen hne ⊢
    have hinit := runCalls_closed_failures cb init hstate
      (fun x hx => hfail x (by simp [hx])) (by simp at hlen; omega)
    obtain ⟨e, he⟩ := hfail last (by simp)
    have hmid := runCalls cb init
    have hno : (runCalls cb init).state ≠ CBState.OPEN := by simp [hinit.1]
    have h0 := execute_not_open_checkOpen (runCalls cb init) last.now hno
    have hcb : ((runCalls cb init).execute last.now last.opRace last.fallback).cb =
        (bumpRequest (runCalls cb init)).onFailure last.now e := by
      rw [he]
      exact (execute_proceeds_err _ _ last.now e last.fallback h0).1
    rw [runCalls_append]
    have hstep : runCalls (runCalls cb init) [last] =
        ((runCalls cb init).execute last.now last.opRace last.fallback).cb := rfl
    rw [hstep, hcb]
    refine ⟨?_, ?_, ?_, ?_⟩
    · rw [onFailure_state]
      rw [if_pos ?_]
      rw [bumpRequest_failureCount, bumpRequest_failureThreshold, hinit.2.1, hinit.2.2.1]
      simp at hlen; omega
    · rw [onFailure_failureCount, bumpRequest_failureCount, hinit.2.1]
      simp at hlen; omega
    · rw [onFailure_failureThreshold, bumpRequest_failureThreshold, hinit.2.2.1]
    · rw [onFailure_resetTimeout, bumpRequest_resetTimeout, hinit.2.2.2]

/-- C1: for every breaker in the CLOSED state with consecutive-failure count
zero, after exactly `failureThreshold` consecutive failed guarded calls the
breaker is OPEN, and the very next `execute` call — occurring before
`resetTimeout` has elapsed since the last failure — is rejected with the
`'Circuit breaker is OPEN'` error without invoking the underlying
operation. -/
theorem C1_breaker_threshold {α : Type} (cb : CircuitBreaker)
    (calls : List (CBCall α))
    (hstate : cb.state = CBState.CLOSED) (hcount : cb.failureCount = 0)
    (hthr : 1 ≤ cb.failureThreshold)
    (hlen : calls.length = cb.failureThreshold)
    (hfail : ∀ c ∈ calls, ∃ e, c.opRace = Except.error e)
    (now2 : Nat) (op2 : Except String α) (fb2 : Option (Except String α))
    (hsoon : (now2 : Int) - ((runCalls cb calls).lastFailureTime.getD 0 : Nat) <
      ((runCalls cb calls).resetTimeout : Int)) :
    (runCalls cb calls).state = CBState.OPEN ∧
    ((runCalls cb calls).execute now2 op2 fb2).outcome =
      Except.error "Circuit breaker is OPEN" ∧
    ((runCalls cb calls).execute now2 op2 fb2).invoked = false := by
  have hne : calls ≠ [] := by
    intro h
    rw [h] at hlen
    simp at hlen
    omega
  have hopen := runCalls_closed_failures_open cb calls hstate hfail (by omega) hne
  have hrej := execute_open_early (runCalls cb calls) now2 op2 fb2 hopen.1 hsoon
  exact ⟨hopen.1, by rw [hrej], by rw [hrej]⟩

/-- Witness for C1 at `failureThreshold = 2`: two failing calls at times 0
and 1 open `c1CB`, and a call at time 2 is rejected unexecuted. -/
theorem C1_breaker_threshold_witness :
    (runCalls c1CB c1Calls).state = CBState.OPEN ∧
    ((runCalls c1CB c1Calls).execute 2 (Except.ok 0 : Except String Nat)
      none).outcome = Except.error "Circuit breaker is OPEN" ∧
    ((runCalls c1CB c1Calls).execute 2 (Except.ok 0 : Except String Nat)
      none).invoked = false :=
  C1_breaker_threshold c1CB c1Calls rfl rfl (by decide) (by decide)
    (by
      intro c hc
      simp only [c1Calls, List.mem_cons, List.mem_singleton] at hc
      rcases hc with rfl | rfl | hc
      · exact ⟨"a", rfl⟩
      · exact ⟨"b", rfl⟩
      · simp at hc)
    2 (Except.ok 0) none (by decide)

/-- A successful call on a HALF_OPEN breaker: the success counter advances
by one, the failure counter resets, and the circuit closes exactly when the
advanced success counter reaches 3. -/
theorem execute_ok_halfOpen {α : Type} (cb : CircuitBreaker)
    (h : cb.state = CBState.HALF_OPEN) (now : Nat) (v : α)
    (fb : Option (Except String α)) :
    (cb.execute now (Except.ok v) fb).cb.state =
      (if 3 ≤ cb.successCount + 1 then CBState.CLOSED else CBState.HALF_OPEN) ∧
    (cb.execute now (Except.ok v) fb).cb.successCount = cb.successCount + 1 ∧
    (cb.execute now (Except.ok v) fb).cb.failureCount = 0 := by
  have hno : cb.state ≠ CBState.OPEN := by simp [h]
  have h0 := execute_not_open_checkOpen cb now hno
  have hcb : (cb.execute now (Except.ok v) fb).cb = (bumpRequest cb).onSuccess := by
    rw [execute_proceeds_ok cb (bumpRequest cb) now v fb h0]
  refine ⟨?_, ?_, ?_⟩
  · rw [hcb, onSuccess_state, bumpRequest_state, bumpRequest_successCount, h]
    by_cases h3 : 3 ≤ cb.successCount + 1 <;> simp [h3]
  · rw [hcb, onSuccess_successCount, bumpRequest_successCount]
  · rw [hcb, onSuccess_failureCount]

/-- C2: for every breaker in the OPEN state — (a) an `execute` call made
strictly less than `resetTimeout` after the last failure time is rejected
with the `'Circuit breaker is OPEN'` error without invoking the operation;
(b) a call made once `resetTimeout` has elapsed passes the open-circuit
check in the HALF_OPEN state (with the probe-success counter reset to zero)
and invokes the operation; (c) from any HALF_OPEN breaker with probe-success
counter zero, three consecutive successful probe calls leave the breaker
CLOSED with `failureCount = 0`. -/
theorem C2_breaker_recovery {α : Type} (cb : CircuitBreaker)
    (hopen : cb.state = CBState.OPEN) :
    (∀ (now : Nat) (op : Except String α) (fb : Option (Except String α)),
      (now : Int) - (cb.lastFailureTime.getD 0 : Nat) < (cb.resetTimeout : Int) →
      (cb.execute now op fb).outcome = Except.error "Circuit breaker is OPEN" ∧
      (cb.execute now op fb).invoked = false) ∧
    (∀ (now : Nat) (op : Except String α) (fb : Option (Except String α)),
      ¬ (now : Int) - (cb.lastFailureTime.getD 0 : Nat) < (cb.resetTimeout : Int) →
      (bumpRequest cb).checkOpen now = some (toHalfOpen (bumpRequest cb)) ∧
      (toHalfOpen (bumpRequest cb)).state = CBState.HALF_OPEN ∧
      (toHalfOpen (bumpRequest cb)).successCount = 0 ∧
      (cb.execute now op fb).invoked = true ∧
      (cb.execute now op fb).stateAtCall = CBState.HALF_OPEN) ∧
    (∀ (h : CircuitBreaker), h.state = CBState.HALF_OPEN → h.successCount = 0 →
      ∀ (probes : List (CBCall α)), probes.length = 3 →
      (∀ c ∈ probes, ∃ v, c.opRace = Except.ok v) →
      (runCalls h probes).state = CBState.CLOSED ∧
      (runCalls h probes).failureCount = 0) := by
  refine ⟨?_, ?_, ?_⟩
  · intro now op fb hlt
    have hrej := execute_open_early cb now op fb hopen hlt
    exact ⟨by rw [hrej], by rw [hrej]⟩
  · intro now op fb hge
    have h0 : (bumpRequest cb).checkOpen now = some (toHalfOpen (bumpRequest cb)) := by
      apply checkOpen_open_elapsed
      · rw [bumpRequest_state]; exact hopen
      · rw [bumpRequest_lastFailureTime, bumpRequest_resetTimeout]; exact hge
    refine ⟨h0, rfl, rfl, ?_, ?_⟩
    · cases op with
      | ok v => rw [execute_proceeds_ok cb _ now v fb h0]
      | error e => exact (execute_proceeds_err cb _ now e fb h0).2.1
    · cases op with
      | ok v =>
          rw [execute_proceeds_ok cb _ now v fb h0]
          rfl
      | error e =>
          rw [(execute_proceeds_err cb _ now e fb h0).2.2]
          rfl
  · intro h hho hsc probes hlen hok
    rcases probes with _ | ⟨p1, _ | ⟨p2, _ | ⟨p3, rest⟩⟩⟩ <;> simp at hlen
    subst hlen
    obtain ⟨v1, hv1⟩ := hok p1 (by simp)
    obtain ⟨v2, hv2⟩ := hok p2 (by simp)
    obtain ⟨v3, hv3⟩ := hok p3 (by simp)
    have s1 := execute_ok_halfOpen h hho p1.now v1 p1.fallback
    rw [← hv1] at s1
    have hho1 : (h.execute p1.now p1.opRace p1.fallback).cb.state = CBState.HALF_OPEN := by
      rw [s1.1, hsc]; simp
    have hsc1 : (h.execute p1.now p1.opRace p1.fallback).cb.successCount = 1 := by
      rw [s1.2.1, hsc]
    have s2 := execute_ok_halfOpen _ hho1 p2.now v2 p2.fallback
    rw [← hv2] at s2
    have hho2 : ((h.execute p1.now p1.opRace p1.fallback).cb.execute p2.now p2.opRace
        p2.fallback).cb.state = CBState.HALF_OPEN := by
      rw [s2.1, hsc1]; simp
    have hsc2 : ((h.execute p1.now p1.opRace p1.fallback).cb.execute p2.now p2.opRace
        p2.fallback).cb.successCount = 2 := by
      rw [s2.2.1, hsc1]
    have s3 := execute_ok_halfOpen _ hho2 p3.now v3 p3.fallback
    rw [← hv3] at s3
    refine ⟨?_, ?_⟩
    · show (((h.execute p1.now p1.opRace p1.fallback).cb.execute p2.now p2.opRace
        p2.fallback).cb.execute p3.now p3.opRace p3.fallback).cb.state = CBState.CLOSED
      rw [s3.1, hsc2]
      decide
    · exact s3.2.2

/-- Witness for C2 on `openCB` (OPEN, last failure at 0, `resetTimeout`
100): rejection at time 5, probe admission at time 200, and three probe
successes from the HALF_OPEN state closing the circuit. -/
theorem C2_breaker_recovery_witness :
    ((openCB.execute 5 (Except.ok 0 : Except String Nat) none).outcome =
      Except.error "Circuit breaker is OPEN" ∧
     (openCB.execute 5 (Except.ok 0 : Except String Nat) none).invoked = false) ∧
    ((openCB.execute 200 (Except.ok 0 : Except String Nat) none).invoked = true ∧
     (openCB.execute 200 (Except.ok 0 : Except String Nat) none).stateAtCall =
       CBState.HALF_OPEN) ∧
    ((runCalls hoCB c2Probes).state = CBState.CLOSED ∧
     (runCalls hoCB c2Probes).failureCount = 0) :=
  ⟨(C2_breaker_recovery (α := Nat) openCB (by decide)).1 5 (Except.ok 0) none (by decide),
   ⟨((C2_breaker_recovery (α := Nat) openCB (by decide)).2.1 200 (Except.ok 0) none
       (by decide)).2.2.2.1,
    ((C2_breaker_recovery (α := Nat) openCB (by decide)).2.1 200 (Except.ok 0) none
       (by decide)).2.2.2.2⟩,
   (C2_breaker_recovery (α := Nat) openCB (by decide)).2.2 hoCB (by decide) (by decide)
     c2Probes (by decide)
     (by
       intro c hc
       simp only [c2Probes, List.mem_cons, List.mem_singleton] at hc
       rcases hc with rfl | rfl | rfl | hc
       · exact ⟨1, rfl⟩
       · exact ⟨2, rfl⟩
       · exact ⟨3, rfl⟩
       · simp at hc)⟩

/-- C3 counterexample: `c3HalfOpen` is a reachable HALF_OPEN breaker
(`failureThreshold = 2`) with one prior probe success in the episode
(`successCount = 1`, `failureCount = 0`); a single failed call at time 21
leaves it HALF_OPEN rather than transitioning back to OPEN, refuting
"regardless of how many probe successes occurred earlier". -/
theorem C3_counterexample :
    c3HalfOpen.state = CBState.HALF_OPEN ∧
    c3HalfOpen.successCount = 1 ∧
    c3HalfOpen.failureCount = 0 ∧
    (c3HalfOpen.execute 21 (Except.error "boom" : Except String Nat) none).cb.state =
      CBState.HALF_OPEN ∧
    ¬ (c3HalfOpen.execute 21 (Except.error "boom" : Except String Nat) none).cb.state =
      CBState.OPEN := by
  decide

/-- C3 (amended): a failed call on a HALF_OPEN breaker always updates the
failure-tracking timestamp to the failure's time, and it transitions back to
OPEN exactly when the incremented failure count reaches `failureThreshold` —
which always holds when no probe success occurred in the episode (the
failure count retained from OPEN is already at the threshold), but fails
once a probe success has reset the failure count to zero (with threshold at
least 2), in which case the breaker stays HALF_OPEN. -/
theorem C3_halfOpen_failure {α : Type} (cb : CircuitBreaker)
    (h : cb.state = CBState.HALF_OPEN) (now : Nat) (e : String)
    (fb : Option (Except String α)) :
    (cb.execute now (Except.error e) fb).cb.lastFailureTime = some now ∧
    ((cb.execute now (Except.error e) fb).cb.state = CBState.OPEN ↔
      cb.failureThreshold ≤ cb.failureCount + 1) ∧
    (¬ cb.failureThreshold ≤ cb.failureCount + 1 →
      (cb.execute now (Except.error e) fb).cb.state = CBState.HALF_OPEN) := by
  have hno : cb.state ≠ CBState.OPEN := by simp [h]
  have h0 := execute_not_open_checkOpen cb now hno
  have hcb := (execute_proceeds_err cb (bumpRequest cb) now e fb h0).1
  refine ⟨?_, ?_, ?_⟩
  · rw [hcb, onFailure_lastFailureTime]
  · rw [hcb, onFailure_state, bumpRequest_failureCount, bumpRequest_failureThreshold,
      bumpRequest_state, h]
    constructor
    · intro hst
      by_contra hnc
      rw [if_neg hnc] at hst
      exact absurd hst (by decide)
    · intro hc
      rw [if_pos hc]
  · intro hnc
    rw [hcb, onFailure_state, bumpRequest_failureCount, bumpRequest_failureThreshold,
      bumpRequest_state, h, if_neg hnc]

/-- Witness for the amended C3 at `c3HalfOpen` (threshold 2, one probe
success): the failed call records the new failure time and stays HALF_OPEN. -/
theorem C3_halfOpen_failure_witness :
    c3HalfOpen.state = CBState.HALF_OPEN ∧
    ((c3HalfOpen.execute 21 (Except.error "x" : Except String Nat) none).cb.lastFailureTime =
        some 21 ∧
     ((c3HalfOpen.execute 21 (Except.error "x" : Except String Nat) none).cb.state =
         CBState.OPEN ↔
       c3HalfOpen.failureThreshold ≤ c3HalfOpen.failureCount + 1) ∧
     (¬ c3HalfOpen.failureThreshold ≤ c3HalfOpen.failureCount + 1 →
       (c3HalfOpen.execute 21 (Except.error "x" : Except String Nat) none).cb.state =
         CBState.HALF_OPEN)) :=
  ⟨by decide, C3_halfOpen_failure c3HalfOpen (by decide) 21 "x" none⟩

/-- C4: whenever a guarded call proceeds to invoke the operation, the
operation fails, and a supplied fallback also fails, the error surfaced to
the caller is the operation's original error, not the fallback's. -/
theorem C4_fallback_precedence {α : Type} (cb : CircuitBreaker) (now : Nat)
    (e fe : String)
    (hinv : (cb.execute now (Except.error e : Except String α)
      (some (Except.error fe))).invoked = true) :
    (cb.execute now (Except.error e : Except String α)
      (some (Except.error fe))).fallbackInvoked = true ∧
    (cb.execute now (Except.error e : Except String α)
      (some (Except.error fe))).outcome = Except.error e := by
  cases h0 : (bumpRequest cb).checkOpen now with
  | none =>
      exfalso
      rw [show (cb.execute now (Except.error e) (some (Except.error fe))).invoked = false by
        simp [CircuitBreaker.execute, h0]] at hinv
      exact absurd hinv (by decide)
  | some cb1 =>
      constructor <;> simp [CircuitBreaker.execute, h0]

/-- Witness for C4: a fresh CLOSED breaker, primary error `"primary down"`,
fallback error `"fallback down"`; the surfaced error is the primary's. -/
theorem C4_fallback_precedence_witness :
    ((CircuitBreaker.new 5 100 30000 60000).execute 0
        (Except.error "primary down" : Except String Nat)
        (some (Except.error "fallback down"))).fallbackInvoked = true ∧
    ((CircuitBreaker.new 5 100 30000 60000).execute 0
        (Except.error "primary down" : Except String Nat)
        (some (Except.error "fallback down"))).outcome = Except.error "primary down" :=
  C4_fallback_precedence (CircuitBreaker.new 5 100 30000 60000) 0
    "primary down" "fallback down" (by decide)

/-- C5 counterexample: `openCB` is OPEN within `resetTimeout` of its last
failure; a call carrying a fallback that would succeed with 42 is rejected
with the circuit-open error and the fallback is never invoked — refuting
"the fallback is invoked" for open-circuit rejections. -/
theorem C5_counterexample :
    openCB.state = CBState.OPEN ∧
    (openCB.execute 5 (Except.ok 0 : Except String Nat)
      (some (Except.ok 42))).fallbackInvoked = false ∧
    (openCB.execute 5 (Except.ok 0 : Except String Nat)
      (some (Except.ok 42))).invoked = false ∧
    (openCB.execute 5 (Except.ok 0 : Except String Nat)
      (some (Except.ok 42))).outcome = Except.error "Circuit breaker is OPEN" :=
  ⟨by decide, by decide, by decide, rfl⟩

/-- C5 (amended): when `execute` rejects a call because the circuit is OPEN
(within `resetTimeout` of the last failure), a supplied fallback is NOT
invoked: the `'Circuit breaker is OPEN'` error is thrown directly, so the
surfaced error is always the rejection error and never the fallback's. -/
theorem C5_open_rejection_no_fallback {α : Type} (cb : CircuitBreaker) (now : Nat)
    (op : Except String α) (fb : Option (Except String α))
    (h : cb.state = CBState.OPEN)
    (hlt : (now : Int) - (cb.lastFailureTime.getD 0 : Nat) < (cb.resetTimeout : Int)) :
    (cb.execute now op fb).outcome = Except.error "Circuit breaker is OPEN" ∧
    (cb.execute now op fb).invoked = false ∧
    (cb.execute now op fb).fallbackInvoked = false := by
  have hrej := execute_open_early cb now op fb h hlt
  exact ⟨by rw [hrej], by rw [hrej], by rw [hrej]⟩

/-- Witness for the amended C5 at `openCB` with a succeeding fallback. -/
theorem C5_open_rejection_no_fallback_witness :
    (openCB.execute 5 (Except.ok 0 : Except String Nat)
      (some (Except.ok 42))).outcome = Except.error "Circuit breaker is OPEN" ∧
    (openCB.execute 5 (Except.ok 0 : Except String Nat)
      (some (Except.ok 42))).invoked = false ∧
    (openCB.execute 5 (Except.ok 0 : Except String Nat)
      (some (Except.ok 42))).fallbackInvoked = false :=
  C5_open_rejection_no_fallback openCB 5 (Except.ok 0) (some (Except.ok 42))
    (by decide) (by decide)

theorem checkOpen_stats (cb cb1 : CircuitBreaker) (now : Nat)
    (h : cb.checkOpen now = some cb1) : cb1.stats = cb.stats := by
  unfold CircuitBreaker.checkOpen at h
  split at h
  · split at h
    · exact absurd h (by simp)
    · rw [(Option.some_inj.mp h).symm, toHalfOpen_stats]
  · rw [(Option.some_inj.mp h).symm]

/-- Every `execute` call bumps `stats.totalRequests` by exactly one. -/
theorem execute_totalRequests {α : Type} (cb : CircuitBreaker) (now : Nat)
    (op : Except String α) (fb : Option (Except String α)) :
    (cb.execute now op fb).cb.stats.totalRequests = cb.stats.totalRequests + 1 := by
  cases h0 : (bumpRequest cb).checkOpen now with
  | none =>
      have hcb : (cb.execute now op fb).cb = bumpRequest cb := by
        simp [CircuitBreaker.execute, h0]
      rw [hcb, bumpRequest_totalRequests]
  | some cb1 =>
      have hst : cb1.stats = (bumpRequest cb).stats := checkOpen_stats _ _ _ h0
      cases op with
      | ok v =>
          rw [execute_proceeds_ok cb cb1 now v fb h0]
          show cb1.onSuccess.stats.totalRequests = _
          rw [onSuccess_totalRequests, hst, bumpRequest_totalRequests]
      | error e =>
          rw [(execute_proceeds_err cb cb1 now e fb h0).1]
          rw [onFailure_totalRequests, hst, bumpRequest_totalRequests]

/-- Every invoked `execute` call adds exactly one to
`totalSuccesses + totalFailures`; a rejected call adds nothing. -/
theorem execute_sf {α : Type} (cb : CircuitBreaker) (now : Nat)
    (op : Except String α) (fb : Option (Except String α)) :
    (cb.execute now op fb).cb.stats.totalSuccesses +
      (cb.execute now op fb).cb.stats.totalFailures =
    cb.stats.totalSuccesses + cb.stats.totalFailures +
      (if (cb.execute now op fb).invoked then 1 else 0) := by
  cases h0 : (bumpRequest cb).checkOpen now with
  | none =>
      have hcb : (cb.execute now op fb).cb = bumpRequest cb := by
        simp [CircuitBreaker.execute, h0]
      have hinv : (cb.execute now op fb).invoked = false := by
        simp [CircuitBreaker.execute, h0]
      rw [hcb, hinv, bumpRequest_totalSuccesses, bumpRequest_totalFailures]
      simp
  | some cb1 =>
      have hst : cb1.stats = (bumpRequest cb).stats := checkOpen_stats _ _ _ h0
      cases op with
      | ok v =>
          rw [execute_proceeds_ok cb cb1 now v fb h0]
          show cb1.onSuccess.stats.totalSuccesses + cb1.onSuccess.stats.totalFailures =
            _ + (if (true : Bool) then 1 else 0)
          rw [onSuccess_totalSuccesses, onSuccess_totalFailures, hst,
            bumpRequest_totalSuccesses, bumpRequest_totalFailures]
          simp
          omega
      | error e =>
          have he := execute_proceeds_err cb cb1 now e fb h0
          rw [he.1, he.2.1]
          rw [onFailure_totalSuccesses, onFailure_totalFailures, hst,
            bumpRequest_totalSuccesses, bumpRequest_totalFailures]
          simp
          omega

/-- Cumulative bookkeeping of a call sequence: `totalRequests` grows by the
number of calls, and `totalSuccesses + totalFailures` grows by the number of
calls that were not rejected by the open-circuit check. -/
theorem runCalls_stats {α : Type} (cb : CircuitBreaker) (calls : List (CBCall α)) :
    (runCalls cb calls).stats.totalRequests =
      cb.stats.totalRequests + calls.length ∧
    (runCalls cb calls).stats.totalSuccesses +
      (runCalls cb calls).stats.totalFailures + countRejections cb calls =
      cb.stats.totalSuccesses + cb.stats.totalFailures + calls.length := by
  induction calls generalizing cb with
  | nil => simp [runCalls, countRejections]
  | cons c cs ih =>
    have h1 := execute_totalRequests cb c.now c.opRace c.fallback
    have h2 := execute_sf cb c.now c.opRace c.fallback
    have hrec := ih (cb.execute c.now c.opRace c.fallback).cb
    have hrc : runCalls cb (c :: cs) =
        runCalls (cb.execute c.now c.opRace c.fallback).cb cs := rfl
    have hcr : countRejections cb (c :: cs) =
        (if (cb.execute c.now c.opRace c.fallback).invoked then 0 else 1) +
          countRejections (cb.execute c.now c.opRace c.fallback).cb cs := rfl
    constructor
    · rw [hrc, hrec.1, h1]
      simp
      omega
    · rw [hrc, hcr]
      have h3 := hrec.2
      cases hi : (cb.execute c.now c.opRace c.fallback).invoked
      · rw [hi] at h2
        simp at h2 ⊢
        omega
      · rw [hi] at h2
        simp at h2 ⊢
        omega

/-- C9: every call to `execute` increments the cumulative
`stats.totalRequests` by exactly one, including calls rejected immediately
with the circuit-open error (which invoke neither `onSuccess` nor
`onFailure`); consequently, starting from a freshly constructed breaker,
after any call sequence `totalRequests = totalSuccesses + totalFailures +
(number of open-state rejections)`, and a sequence containing at least one
rejection leaves `totalRequests` strictly greater than
`totalSuccesses + totalFailures`. -/
theorem C9_totalRequests_accounting (α : Type) :
    (∀ (cb : CircuitBreaker) (now : Nat) (op : Except String α)
        (fb : Option (Except String α)),
      (cb.execute now op fb).cb.stats.totalRequests = cb.stats.totalRequests + 1) ∧
    (∀ (thr rT t1 t2 : Nat) (calls : List (CBCall α)),
      (runCalls (CircuitBreaker.new thr rT t1 t2) calls).stats.totalRequests =
        (runCalls (CircuitBreaker.new thr rT t1 t2) calls).stats.totalSuccesses +
        (runCalls (CircuitBreaker.new thr rT t1 t2) calls).stats.totalFailures +
        countRejections (CircuitBreaker.new thr rT t1 t2) calls) ∧
    (∀ (thr rT t1 t2 : Nat) (calls : List (CBCall α)),
      1 ≤ countRejections (CircuitBreaker.new thr rT t1 t2) calls →
      (runCalls (CircuitBreaker.new thr rT t1 t2) calls).stats.totalSuccesses +
        (runCalls (CircuitBreaker.new thr rT t1 t2) calls).stats.totalFailures <
        (runCalls (CircuitBreaker.new thr rT t1 t2) calls).stats.totalRequests) := by
  refine ⟨execute_totalRequests, ?_, ?_⟩
  · intro thr rT t1 t2 calls
    have h := runCalls_stats (CircuitBreaker.new thr rT t1 t2) calls
    have e1 : (CircuitBreaker.new thr rT t1 t2).stats.totalRequests = 0 := rfl
    have e2 : (CircuitBreaker.new thr rT t1 t2).stats.totalSuccesses = 0 := rfl
    have e3 : (CircuitBreaker.new thr rT t1 t2).stats.totalFailures = 0 := rfl
    rw [e1, e2, e3] at h
    omega
  · intro thr rT t1 t2 calls hone
    have h := runCalls_stats (CircuitBreaker.new thr rT t1 t2) calls
    have e1 : (CircuitBreaker.new thr rT t1 t2).stats.totalRequests = 0 := rfl
    have e2 : (CircuitBreaker.new thr rT t1 t2).stats.totalSuccesses = 0 := rfl
    have e3 : (CircuitBreaker.new thr rT t1 t2).stats.totalFailures = 0 := rfl
    rw [e1, e2, e3] at h
    omega

/-- Witness for C9: threshold 1, a failure at time 0 opens the circuit, the
call at time 1 is rejected; afterwards `totalSuccesses + totalFailures = 1 <
2 = totalRequests`. -/
theorem C9_totalRequests_accounting_witness :
    (runCalls (CircuitBreaker.new 1 100 30000 60000) c9Calls).stats.totalSuccesses +
      (runCalls (CircuitBreaker.new 1 100 30000 60000) c9Calls).stats.totalFailures <
      (runCalls (CircuitBreaker.new 1 100 30000 60000) c9Calls).stats.totalRequests :=
  (C9_totalRequests_accounting Nat).2.2 1 100 30000 60000 c9Calls (by decide)

/-! ## Lemmas for the points-based limiter -/

theorem alistFind_insert_self {β : Type} (m : List (String × β)) (k : String) (v : β) :
    alistFind (alistInsert m k v) k = some v := by
  induction m with
  | nil => simp [alistInsert, alistFind]
  | cons p rest ih =>
      obtain ⟨k1, v1⟩ := p
      by_cases h : k1 = k
      · simp [alistInsert, h, alistFind]
      · simp [alistInsert, h, alistFind, ih]

theorem effEntry_none (l : PointsBasedLimiter) (key : String) (now : Nat)
    (hnone : alistFind l.points key = none) :
    l.effEntry key now = { points := 0, resetTime := now + l.windowMs } := by
  simp only [PointsBasedLimiter.effEntry, hnone]
  rw [if_neg (by omega)]

theorem effEntry_some_noReset (l : PointsBasedLimiter) (key : String) (now : Nat)
    (e : PBLEntry) (hfind : alistFind l.points key = some e)
    (hwin : ¬ e.resetTime < now) :
    l.effEntry key now = e := by
  simp only [PointsBasedLimiter.effEntry, hfind]
  rw [if_neg hwin]

theorem canExecute_admits_iff (l : PointsBasedLimiter) (key op : String) (now : Nat) :
    (l.canExecute key op now).1 = true ↔
      ¬ l.maxPoints < (l.effEntry key now).points + getCost op := by
  simp only [PointsBasedLimiter.canExecute]
  split <;> rename_i hc <;> simp [hc]

theorem canExecute_admits_points (l : PointsBasedLimiter) (key op : String) (now : Nat)
    (hc : ¬ l.maxPoints < (l.effEntry key now).points + getCost op) :
    alistFind (l.canExecute key op now).2.points key =
      some { points := (l.effEntry key now).points + getCost op,
             resetTime := (l.effEntry key now).resetTime } := by
  have h2 : (l.canExecute key op now).2.points =
      alistInsert l.points key
        ({ points := (l.effEntry key now).points + getCost op,
           resetTime := (l.effEntry key now).resetTime }) := by
    simp only [PointsBasedLimiter.canExecute]
    rw [if_neg hc]
  rw [h2]
  exact alistFind_insert_self _ _ _

theorem canExecute_windowMs (l : PointsBasedLimiter) (key op : String) (now : Nat) :
    (l.canExecute key op now).2.windowMs = l.windowMs := by
  simp only [PointsBasedLimiter.canExecute]
  split <;> rfl

theorem canExecute_maxPoints (l : PointsBasedLimiter) (key op : String) (now : Nat) :
    (l.canExecute key op now).2.maxPoints = l.maxPoints := by
  simp only [PointsBasedLimiter.canExecute]
  split <;> rfl

/-- C6: in the points-based limiter, a request is admitted by `canExecute`
if and only if the key's current points (after the lazy window reset) plus
the operation's cost fit within `maxPoints`; admission immediately adds the
cost to the key's stored points; and for a key starting at zero points, two
admission checks within one window whose combined cost exceeds `maxPoints`
never both succeed. -/
theorem C6_point_budget (l : PointsBasedLimiter) (key op : String) (now : Nat) :
    ((l.canExecute key op now).1 = true ↔
      (l.effEntry key now).points + getCost op ≤ l.maxPoints) ∧
    ((l.canExecute key op now).1 = true →
      alistFind (l.canExecute key op now).2.points key =
        some { points := (l.effEntry key now).points + getCost op,
               resetTime := (l.effEntry key now).resetTime }) ∧
    (∀ (op2 : String) (now2 : Nat),
      alistFind l.points key = none → now2 ≤ now + l.windowMs →
      l.maxPoints < getCost op + getCost op2 →
      ¬ ((l.canExecute key op now).1 = true ∧
         ((l.canExecute key op now).2.canExecute key op2 now2).1 = true)) := by
  refine ⟨?_, ?_, ?_⟩
  · rw [canExecute_admits_iff]
    omega
  · intro htrue
    exact canExecute_admits_points l key op now ((canExecute_admits_iff l key op now).mp htrue)
  · intro op2 now2 hnone hwin hcost ⟨h1t, h2t⟩
    have heff1 : l.effEntry key now = { points := 0, resetTime := now + l.windowMs } :=
      effEntry_none l key now hnone
    have hc1 : ¬ l.maxPoints < (l.effEntry key now).points + getCost op :=
      (canExecute_admits_iff l key op now).mp h1t
    have hstored := canExecute_admits_points l key op now hc1
    rw [heff1] at hstored
    have heff2 : (l.canExecute key op now).2.effEntry key now2 =
        { points := 0 + getCost op, resetTime := now + l.windowMs } := by
      apply effEntry_some_noReset _ _ _ _ hstored
      simp
      omega
    have hc2 := (canExecute_admits_iff (l.canExecute key op now).2 key op2 now2).mp h2t
    rw [heff2, canExecute_maxPoints] at hc2
    rw [heff1] at hc1
    simp at hc1 hc2
    omega

/-- Witness for C6 on `pblSmall` (`maxPoints = 20`, `windowMs = 100`): a
`"GET"` (cost 1) is admitted and its cost is stored; two `"UPLOAD"`s
(cost 15 each, combined 30 > 20) within one window do not both succeed. -/
theorem C6_point_budget_witness :
    ((pblSmall.canExecute "u" "GET" 0).1 = true ∧
     alistFind (pblSmall.canExecute "u" "GET" 0).2.points "u" =
       some { points := (pblSmall.effEntry "u" 0).points + getCost "GET",
              resetTime := (pblSmall.effEntry "u" 0).resetTime }) ∧
    ¬ ((pblSmall.canExecute "u" "UPLOAD" 0).1 = true ∧
       ((pblSmall.canExecute "u" "UPLOAD" 0).2.canExecute "u" "UPLOAD" 50).1 = true) :=
  ⟨⟨by decide, (C6_point_budget pblSmall "u" "GET" 0).2.1 (by decide)⟩,
   (C6_point_budget pblSmall "u" "UPLOAD" 0).2.2 "UPLOAD" 50 rfl (by decide) (by decide)⟩

/-! ## Lemmas for the cache manager -/

theorem alistFind_erase_self {β : Type} (m : List (String × β)) (k : String) :
    alistFind (alistErase m k) k = none := by
  induction m with
  | nil => rfl
  | cons p rest ih =>
      obtain ⟨k1, v1⟩ := p
      by_cases h : k1 = k
      · subst h
        simpa [alistErase, List.filter_cons] using ih
      · simp only [alistErase, List.filter_cons] at ih ⊢
        have hb : (!(k1 == k)) = true := by simp [h]
        rw [hb]
        simp only [if_true, alistFind, if_neg h]
        exact ih

theorem getTier_putTier {α : Type} (cm : CacheManager α) (t : String)
    (c c0 : NodeCache α) (h : cm.getTier t = some c0) :
    (cm.putTier t c).getTier t = some c := by
  by_cases h1 : t = "main"
  · simp [CacheManager.getTier, CacheManager.putTier, h1]
  · by_cases h2 : t = "session"
    · simp [CacheManager.getTier, CacheManager.putTier, h1, h2]
    · by_cases h3 : t = "ai"
      · simp [CacheManager.getTier, CacheManager.putTier, h1, h2, h3]
      · by_cases h4 : t = "rateLimit"
        · simp [CacheManager.getTier, CacheManager.putTier, h1, h2, h3, h4]
        · exfalso
          simp [CacheManager.getTier, h1, h2, h3, h4] at h

set_option maxRecDepth 200000 in
/-- C7 counterexample: the `ai` tier holds exactly its configured
`maxKeys = 200` entries; `set` with a fresh key on this well-formed tier
returns failure and leaves the manager unchanged — nothing is evicted and
nothing inserted, refuting both "evicts one entry before inserting" and
"failure only on a malformed tier identifier". -/
theorem C7_counterexample :
    aiFullCM.ai.maxKeys = 200 ∧
    aiFullCM.ai.data.length = 200 ∧
    (aiFullCM.set "newKey" (7 : Nat) none "ai").1 = false ∧
    (aiFullCM.set "newKey" (7 : Nat) none "ai").2 = aiFullCM :=
  ⟨rfl, rfl, rfl, rfl⟩

/-- C7 (amended): `CacheManager.set` fails (returns `false` with the
manager unchanged) when the tier identifier is unknown, and also when the
tier already holds `maxKeys` entries — the underlying `node-cache` throws
`ECACHEFULL` instead of evicting, and the `try/catch` turns that into
`false`; below capacity, `set` stores the entry and returns `true`. -/
theorem C7_set_capacity {α : Type} (cm : CacheManager α) (key : String) (v : α)
    (ttl : Option Nat) (cacheType : String) :
    (cm.getTier cacheType = none → cm.set key v ttl cacheType = (false, cm)) ∧
    (∀ c : NodeCache α, cm.getTier cacheType = some c →
      -1 < c.maxKeys → c.maxKeys ≤ (c.data.length : Int) →
      cm.set key v ttl cacheType = (false, cm)) ∧
    (∀ c : NodeCache α, cm.getTier cacheType = some c →
      ((c.data.length : Int) < c.maxKeys ∨ c.maxKeys ≤ -1) →
      (cm.set key v ttl cacheType).1 = true ∧
      ∀ c1 : NodeCache α, (cm.set key v ttl cacheType).2.getTier cacheType = some c1 →
        alistFind c1.data key = some { value := v, ttl := ttl.getD c.stdTTL }) := by
  refine ⟨?_, ?_, ?_⟩
  · intro h
    simp [CacheManager.set, h]
  · intro c hc hgt hful
    have hset : c.ncSet key v ttl = Except.error "ECACHEFULL" := by
      simp only [NodeCache.ncSet]
      rw [if_pos ⟨hgt, hful⟩]
    simp [CacheManager.set, hc, hset]
  · intro c hc hlt
    have hset : c.ncSet key v ttl =
        Except.ok { c with data := alistInsert c.data key ({ value := v, ttl := ttl.getD c.stdTTL }) } := by
      simp only [NodeCache.ncSet]
      rw [if_neg (by rintro ⟨hgt, hful⟩; rcases hlt with hl | hl <;> omega)]
    refine ⟨by simp [CacheManager.set, hc, hset], ?_⟩
    intro c1 hc1
    have h2 : (cm.set key v ttl cacheType).2 =
        cm.putTier cacheType ({ c with data := alistInsert c.data key ({ value := v, ttl := ttl.getD c.stdTTL }) }) := by
      simp [CacheManager.set, hc, hset]
    rw [h2, getTier_putTier cm cacheType _ c hc] at hc1
    rw [(Option.some_inj.mp hc1).symm]
    exact alistFind_insert_self _ _ _

set_option maxRecDepth 200000 in
/-- Witness for the amended C7: an unknown tier fails; the full `ai` tier
fails; an insertion into the empty `main` tier succeeds and is findable. -/
theorem C7_set_capacity_witness :
    cacheManagerInit.set "k" (5 : Nat) none "bogus" = (false, cacheManagerInit) ∧
    aiFullCM.set "newKey2" (7 : Nat) none "ai" = (false, aiFullCM) ∧
    ((cacheManagerInit.set "k" (5 : Nat) none "main").1 = true ∧
     alistFind (cacheManagerInit.set "k" (5 : Nat) none "main").2.main.data "k" =
       some { value := 5, ttl := 300 }) :=
  ⟨(C7_set_capacity (cacheManagerInit : CacheManager Nat) "k" 5 none "bogus").1 rfl,
   (C7_set_capacity aiFullCM "newKey2" 7 none "ai").2.1 aiFullCM.ai rfl
     (by decide) (by decide),
   ⟨((C7_set_capacity (cacheManagerInit : CacheManager Nat) "k" 5 none
       "main").2.2 cacheManagerInit.main rfl (Or.inl (by decide))).1,
    ((C7_set_capacity (cacheManagerInit : CacheManager Nat) "k" 5 none
       "main").2.2 cacheManagerInit.main rfl (Or.inl (by decide))).2
      (cacheManagerInit.set "k" (5 : Nat) none "main").2.main rfl⟩⟩

/-- C8: on a valid tier, `delete` always returns a deletion count (never the
`false` failure value): `1` when the key was present and `0` when absent;
the key is absent from the tier afterwards; and deleting the same key twice
returns a count both times, `0` the second time. -/
theorem C8_delete_idempotent {α : Type} (cm : CacheManager α) (key cacheType : String)
    (c : NodeCache α) (hc : cm.getTier cacheType = some c) :
    (cm.delete key cacheType).1 =
      CMDelResult.count (if (alistFind c.data key).isSome then 1 else 0) ∧
    (∀ c1 : NodeCache α, (cm.delete key cacheType).2.getTier cacheType = some c1 →
      alistFind c1.data key = none) ∧
    ((cm.delete key cacheType).2.delete key cacheType).1 = CMDelResult.count 0 := by
  have h2 : cm.delete key cacheType =
      (CMDelResult.count (c.ncDel key).1, cm.putTier cacheType (c.ncDel key).2) := by
    simp [CacheManager.delete, hc]
  have hfind : alistFind (c.ncDel key).2.data key = none := by
    by_cases hp : (alistFind c.data key).isSome
    · have : c.ncDel key = (1, { c with data := alistErase c.data key }) := by
        simp only [NodeCache.ncDel]
        rw [if_pos hp]
      rw [this]
      exact alistFind_erase_self _ _
    · have : c.ncDel key = (0, c) := by
        simp only [NodeCache.ncDel]
        rw [if_neg hp]
      rw [this]
      simpa using hp
  have htier : (cm.delete key cacheType).2.getTier cacheType = some (c.ncDel key).2 := by
    rw [h2]
    exact getTier_putTier cm cacheType _ c hc
  refine ⟨?_, ?_, ?_⟩
  · rw [h2]
    by_cases hp : (alistFind c.data key).isSome
    · have : c.ncDel key = (1, { c with data := alistErase c.data key }) := by
        simp only [NodeCache.ncDel]
        rw [if_pos hp]
      rw [this, if_pos hp]
    · have : c.ncDel key = (0, c) := by
        simp only [NodeCache.ncDel]
        rw [if_neg hp]
      rw [this, if_neg hp]
  · intro c1 hc1
    rw [htier] at hc1
    rw [(Option.some_inj.mp hc1).symm]
    exact hfind
  · set cm2 := (cm.delete key cacheType).2 with hcm2
    have h4 : cm2.delete key cacheType =
        (CMDelResult.count ((c.ncDel key).2.ncDel key).1,
         cm2.putTier cacheType ((c.ncDel key).2.ncDel key).2) := by
      simp [CacheManager.delete, htier]
    have h5 : ∀ d : NodeCache α, alistFind d.data key = none → d.ncDel key = (0, d) := by
      intro d hd
      simp only [NodeCache.ncDel]
      rw [if_neg (by simp [hd])]
    rw [h4, h5 _ hfind]

/-- Witness for C8 on `cmWithK` (key `"k"` present in the `main` tier):
first delete returns count 1, the key is gone, second delete returns
count 0. -/
theorem C8_delete_idempotent_witness :
    (cmWithK.delete "k" "main").1 = CMDelResult.count 1 ∧
    alistFind (cmWithK.delete "k" "main").2.main.data "k" = none ∧
    ((cmWithK.delete "k" "main").2.delete "k" "main").1 = CMDelResult.count 0 :=
  ⟨(C8_delete_idempotent cmWithK "k" "main" cmWithK.main rfl).1,
   (C8_delete_idempotent cmWithK "k" "main" cmWithK.main rfl).2.1
     (cmWithK.delete "k" "main").2.main rfl,
   (C8_delete_idempotent cmWithK "k" "main" cmWithK.main rfl).2.2⟩
